import Mathlib

/-!
Verification of `taiwan_stock_calculator.py`: a tool computing the permitted
daily price fluctuation band for Taiwan-listed securities.

Embedding choices:
- Python floats are embedded as exact rationals (`ℚ`); all prices, band
  thresholds and fluctuation values in this program are decimal constants that
  `ℚ` represents exactly, so the arithmetic of the algorithm is modelled by
  exact rational arithmetic.
- `float.is_integer()` becomes `Rat.den = 1`; Python's `%` on floats (with a
  positive right operand) becomes `a - b * ⌊a / b⌋`.
- `raise InvalidPriceError(msg)` becomes `Except.error e` where `e` is a
  constructor of `InvalidPrice` identifying the message raised.
- `bisect.bisect_right` is embedded as the standard lo/hi halving loop it
  implements, with a fuel argument bounding the iteration count (the gap
  `hi - lo` shrinks by at least one per iteration, so fuel `|a|` suffices).
-/

namespace TwStock

/-- Failure kinds of `InvalidPriceError`, one per distinct message in the
source (`raise InvalidPriceError(...)` sites of `get_price_range`).
`notANumber` corresponds to the `float(price)` parse failure for non-numeric
input; a `ℚ`-valued input never produces it. -/
inductive InvalidPrice where
  | notANumber
  | notPositive
  | belowMinimum
  | exceedsMaximum
  | tickRange001To10
  | tickRange10To50
  | tickRange50To100
  | tickRange100To500
  | tickRange500To1000
  | tickAbove1000
deriving DecidableEq

/-- A price band tuple `(start, end, fluctuation)` from the source.
The source marks the unbounded top band with `float("inf")`; here `stop`
(`end` in the source, a Lean keyword) is `none` for that band. -/
structure Band where
  start : ℚ
  stop : Option ℚ
  fluctuation : ℚ
deriving DecidableEq, Inhabited

/-- The static seven-band table returned by the source's create_price_table. -/
def create_price_table : List Band :=
  [ ⟨0.01, some 10, 0.01⟩,
    ⟨10, some 50, 0.05⟩,
    ⟨50, some 100, 0.1⟩,
    ⟨100, some 150, 0.5⟩,
    ⟨150, some 500, 0.5⟩,
    ⟨500, some 1000, 1.0⟩,
    ⟨1000, none, 5.0⟩ ]

/-- The lo/hi halving loop of Python's `bisect.bisect_right`, with fuel.
Out-of-range reads return 0; they never occur since `mid < hi ≤ |a|`. -/
def bisectRightLoop (a : List ℚ) (x : ℚ) : Nat → Nat → Nat → Nat
  | 0, lo, _ => lo
  | fuel + 1, lo, hi =>
    if lo < hi then
      let mid := (lo + hi) / 2
      if x < a.getD mid 0 then bisectRightLoop a x fuel lo mid
      else bisectRightLoop a x fuel (mid + 1) hi
    else lo

/-- Embeds `bisect.bisect_right(a, x)`: insertion point to the right of
existing entries equal to `x`, over the whole list. -/
def bisect_right (a : List ℚ) (x : ℚ) : Nat :=
  bisectRightLoop a x a.length 0 a.length

/-- Python `float.is_integer()` on an exact rational. -/
def isInt (q : ℚ) : Bool :=
  q.den == 1

/-- Python `a % b` on floats, for `b > 0`: `a - b * floor(a / b)`. -/
def fmod (a b : ℚ) : ℚ :=
  a - b * ⌊a / b⌋

/-- The tick-size conformance `if/elif` chain of `get_price_range`
(source lines 80-102). `start` is the matched band's start; `none` means
every check passed. -/
def tick_check (start price : ℚ) : Option InvalidPrice :=
  if start ≤ price ∧ price < 10 ∧ ¬ isInt (price * 100) then
    some .tickRange001To10
  else if 10 ≤ price ∧ price < 50 ∧ ¬ isInt (price * 20) then
    some .tickRange10To50
  else if 50 ≤ price ∧ price < 100 ∧ ¬ isInt (price * 10) then
    some .tickRange50To100
  else if 100 ≤ price ∧ price < 500 ∧ ¬ isInt (price * 2) then
    some .tickRange100To500
  else if 500 ≤ price ∧ price < 1000 ∧ ¬ isInt price then
    some .tickRange500To1000
  else if 1000 ≤ price ∧ ¬ (fmod price 5 = 0 ∧ isInt price) then
    some .tickAbove1000
  else
    none

/-- Embeds `bisect.bisect_right([r[0] for r in ranges], price) - 1`.
The subtraction is on `Nat`; it is only consulted after the `price < 0.01`
check has passed, where the bisect result is at least 1. -/
def band_index (ranges : List Band) (price : ℚ) : Nat :=
  bisect_right (ranges.map Band.start) price - 1

/-- Python's round-half-even on an exact rational, to an integer. -/
def roundHalfEven (q : ℚ) : ℤ :=
  let n := ⌊q⌋
  let r := q - n
  if r < 1 / 2 then n
  else if 1 / 2 < r then n + 1
  else if n % 2 = 0 then n else n + 1

/-- Python `round(q, 2)` on an exact rational. -/
def round2 (q : ℚ) : ℚ :=
  (roundHalfEven (q * 100) : ℚ) / 100

/-- Embeds `get_price_range(price, ranges)`: validates the price and computes the
permitted fluctuation range.  A numeric (`ℚ`) input skips the `float(price)`
parse, which cannot fail on it. -/
def get_price_range (price : ℚ) (ranges : List Band) :
    Except InvalidPrice (ℚ × ℚ) :=
  if price ≤ 0 then .error .notPositive
  else if price < 0.01 then .error .belowMinimum
  else if price > 1000000 then .error .exceedsMaximum
  else
    let index := band_index ranges price
    let b := ranges.getD index default
    match tick_check b.start price with
    | some e => .error e
    | none =>
      let down_fluctuation :=
        if price = b.start ∧ 0 < index then
          (ranges.getD (index - 1) default).fluctuation
        else b.fluctuation
      let down_price := max (price - down_fluctuation) 0.01
      let up_price := price + b.fluctuation
      let down_price2 := min down_price price
      .ok (round2 down_price2, round2 up_price)

/-- State-passing form of a call: the source only reads `ranges` (a list
comprehension over it and two indexings) and never assigns into it, so the
table coming out of a call is the table that went in. -/
def get_price_range_call (price : ℚ) (ranges : List Band) :
    Except InvalidPrice (ℚ × ℚ) × List Band :=
  (get_price_range price ranges, ranges)

/-- Band containment: `start ≤ price < end`, with an unbounded top band. -/
def Band.admits (b : Band) (price : ℚ) : Prop :=
  b.start ≤ price ∧ ∀ e ∈ b.stop, price < e

/-- Modelled from the spec: the tick-size rules of spec step 6, stated over
the fixed absolute thresholds (the specification side of the refinement
claims; the code side is `tick_check`). -/
def specTickOk (price : ℚ) : Prop :=
  if price < 10 then ∃ k : ℤ, price = k * 0.01
  else if price < 50 then ∃ k : ℤ, price = k * 0.05
  else if price < 100 then ∃ k : ℤ, price = k * 0.1
  else if price < 500 then ∃ k : ℤ, price = k * 0.5
  else if price < 1000 then ∃ k : ℤ, price = k
  else ∃ k : ℤ, price = k * 5

/-- The band `get_price_range` matches for a given price (index via the
bisect lookup). -/
def bandAt (price : ℚ) : Band :=
  create_price_table.getD (band_index create_price_table price) default

/-- The band preceding the matched one (consulted by the boundary special
case of `get_price_range`). -/
def prevBandAt (price : ℚ) : Band :=
  create_price_table.getD (band_index create_price_table price - 1) default

/-- A quantity that is a whole number of cents (0.01 units); every price
passing a tick check and every fluctuation value in the table is one. -/
def Cent (x : ℚ) : Prop :=
  ∃ k : ℤ, x * 100 = (k : ℚ)

/-!
Helper lemmas: unfolding the bisect loop, evaluating the band lookup on
each of the seven intervals, and arithmetic facts about `isInt`, `fmod`
and `round2`.
-/

lemma brl_succ (a : List ℚ) (x : ℚ) (fuel lo hi : Nat) :
    bisectRightLoop a x (fuel + 1) lo hi =
      if lo < hi then
        (if x < a.getD ((lo + hi) / 2) 0 then
          bisectRightLoop a x fuel lo ((lo + hi) / 2)
         else bisectRightLoop a x fuel ((lo + hi) / 2 + 1) hi)
      else lo := rfl

lemma brl_zero (a : List ℚ) (x : ℚ) (lo hi : Nat) :
    bisectRightLoop a x 0 lo hi = lo := rfl

lemma band_index0 (p : ℚ) (h1 : 0.01 ≤ p) (h2 : p < 10) :
    band_index create_price_table p = 0 := by
  have e1 : ¬ p < 0.01 := not_lt.mpr h1
  have e2 : p < 100 := h2.trans_le (by norm_num)
  simp [band_index, bisect_right, create_price_table, brl_succ, brl_zero, e1, e2, h2]

lemma band_index1 (p : ℚ) (h1 : 10 ≤ p) (h2 : p < 50) :
    band_index create_price_table p = 1 := by
  have e1 : ¬ p < 10 := not_lt.mpr h1
  have e2 : p < 100 := h2.trans_le (by norm_num)
  simp [band_index, bisect_right, create_price_table, brl_succ, brl_zero, e1, e2, h2]

lemma band_index2 (p : ℚ) (h1 : 50 ≤ p) (h2 : p < 100) :
    band_index create_price_table p = 2 := by
  have e1 : ¬ p < 10 := not_lt.mpr (le_trans (by norm_num) h1)
  have e2 : ¬ p < 50 := not_lt.mpr h1
  simp [band_index, bisect_right, create_price_table, brl_succ, brl_zero, e1, e2, h2]

lemma band_index3 (p : ℚ) (h1 : 100 ≤ p) (h2 : p < 150) :
    band_index create_price_table p = 3 := by
  have e1 : ¬ p < 100 := not_lt.mpr h1
  have e2 : p < 500 := h2.trans_le (by norm_num)
  simp [band_index, bisect_right, create_price_table, brl_succ, brl_zero, e1, e2, h2]

lemma band_index4 (p : ℚ) (h1 : 150 ≤ p) (h2 : p < 500) :
    band_index create_price_table p = 4 := by
  have e1 : ¬ p < 100 := not_lt.mpr (le_trans (by norm_num) h1)
  have e2 : ¬ p < 150 := not_lt.mpr h1
  simp [band_index, bisect_right, create_price_table, brl_succ, brl_zero, e1, e2, h2]

lemma band_index5 (p : ℚ) (h1 : 500 ≤ p) (h2 : p < 1000) :
    band_index create_price_table p = 5 := by
  have e1 : ¬ p < 100 := not_lt.mpr (le_trans (by norm_num) h1)
  have e2 : ¬ p < 500 := not_lt.mpr h1
  simp [band_index, bisect_right, create_price_table, brl_succ, brl_zero, e1, e2, h2]

lemma band_index6 (p : ℚ) (h1 : 1000 ≤ p) :
    band_index create_price_table p = 6 := by
  have e1 : ¬ p < 100 := not_lt.mpr (le_trans (by norm_num) h1)
  have e2 : ¬ p < 500 := not_lt.mpr (le_trans (by norm_num) h1)
  have e3 : ¬ p < 1000 := not_lt.mpr h1
  simp [band_index, bisect_right, create_price_table, brl_succ, brl_zero, e1, e2, e3]

lemma table_getD0 : (create_price_table[0]?).getD default = ⟨0.01, some 10, 0.01⟩ := rfl

lemma table_getD1 : (create_price_table[1]?).getD default = ⟨10, some 50, 0.05⟩ := rfl

lemma table_getD2 : (create_price_table[2]?).getD default = ⟨50, some 100, 0.1⟩ := rfl

lemma table_getD3 : (create_price_table[3]?).getD default = ⟨100, some 150, 0.5⟩ := rfl

lemma table_getD4 : (create_price_table[4]?).getD default = ⟨150, some 500, 0.5⟩ := rfl

lemma table_getD5 : (create_price_table[5]?).getD default = ⟨500, some 1000, 1.0⟩ := rfl

lemma table_getD6 : (create_price_table[6]?).getD default = ⟨1000, none, 5.0⟩ := rfl

lemma isInt_iff (q : ℚ) : isInt q = true ↔ ∃ k : ℤ, q = (k : ℚ) := by
  unfold isInt
  rw [beq_iff_eq]
  constructor
  · intro h
    exact ⟨q.num, ((Rat.den_eq_one_iff q).mp h).symm⟩
  · rintro ⟨k, rfl⟩
    exact Rat.den_intCast k

lemma roundHalfEven_intCast (k : ℤ) : roundHalfEven (k : ℚ) = k := by
  unfold roundHalfEven
  rw [Int.floor_intCast]
  norm_num

lemma Cent.round2_eq {x : ℚ} (h : Cent x) : round2 x = x := by
  obtain ⟨k, hk⟩ := h
  unfold round2
  rw [hk, roundHalfEven_intCast]
  linarith

lemma Cent.sub {x y : ℚ} (hx : Cent x) (hy : Cent y) : Cent (x - y) := by
  obtain ⟨k, hk⟩ := hx
  obtain ⟨j, hj⟩ := hy
  exact ⟨k - j, by push_cast; linarith⟩

lemma Cent.add {x y : ℚ} (hx : Cent x) (hy : Cent y) : Cent (x + y) := by
  obtain ⟨k, hk⟩ := hx
  obtain ⟨j, hj⟩ := hy
  exact ⟨k + j, by push_cast; linarith⟩

lemma Cent.max_of {x y : ℚ} (hx : Cent x) (hy : Cent y) : Cent (max x y) := by
  rcases max_choice x y with h | h <;> rw [h] <;> assumption

lemma Cent.min_of {x y : ℚ} (hx : Cent x) (hy : Cent y) : Cent (min x y) := by
  rcases min_choice x y with h | h <;> rw [h] <;> assumption

lemma roundHalfEven_ge_floor (q : ℚ) : ⌊q⌋ ≤ roundHalfEven q := by
  unfold roundHalfEven
  simp only []
  split_ifs <;> omega

lemma round2_ge_min (q : ℚ) (h : 0.01 ≤ q) : 0.01 ≤ round2 q := by
  have h1 : (1 : ℚ) ≤ q * 100 := by linarith
  have h2 : (1 : ℤ) ≤ ⌊q * 100⌋ := Int.le_floor.mpr (by exact_mod_cast h1)
  have h3 := roundHalfEven_ge_floor (q * 100)
  have h4 : (1 : ℚ) ≤ (roundHalfEven (q * 100) : ℚ) := by exact_mod_cast le_trans h2 h3
  unfold round2
  linarith

lemma ok_payload (p d u : ℚ) (hp : 0.01 ≤ p) (hd : 0 ≤ d) (hcp : Cent p)
    (hcd : Cent d) (hcu : Cent u) :
    round2 (min (max (p - d) 0.01) p) = max (p - d) 0.01 ∧
      round2 (p + u) = p + u := by
  have h1 : max (p - d) 0.01 ≤ p := max_le (by linarith) hp
  have c1 : Cent (0.01 : ℚ) := ⟨1, by norm_num⟩
  rw [min_eq_left h1, Cent.round2_eq (Cent.max_of (Cent.sub hcp hcd) c1),
    Cent.round2_eq (Cent.add hcp hcu)]
  exact ⟨rfl, rfl⟩

lemma gpr_in_band0 (p : ℚ) (h1 : 0.01 ≤ p) (h2 : p < 10) (k : ℤ)
    (hk : p = k * 0.01) :
    get_price_range p create_price_table =
      .ok (max (p - 0.01) 0.01, p + 0.01) := by
  have e0 : ¬ p ≤ 0 := not_le.mpr (by linarith)
  have e1 : ¬ p < 0.01 := not_lt.mpr h1
  have e2 : ¬ p > 1000000 := not_lt.mpr (by linarith)
  have eidx := band_index0 p h1 h2
  have n50 : ¬ 50 ≤ p := not_le.mpr (by linarith)
  have n10 : ¬ 10 ≤ p := not_le.mpr h2
  have n100 : ¬ 100 ≤ p := not_le.mpr (by linarith)
  have n500 : ¬ 500 ≤ p := not_le.mpr (by linarith)
  have n1000 : ¬ 1000 ≤ p := not_le.mpr (by linarith)
  have eint : isInt (p * 100) = true :=
    (isInt_iff _).mpr ⟨k, by rw [hk]; ring_nf⟩
  have etick : tick_check 0.01 p = none := by
    simp [tick_check, eint, n10, n50, n100, n500, n1000]
  have hcp : Cent p := ⟨k, by rw [hk]; ring⟩
  simp [get_price_range, eidx, e0, e1, e2, table_getD0, etick]
  exact ok_payload p 0.01 0.01 h1 (by norm_num) hcp ⟨1, by norm_num⟩ ⟨1, by norm_num⟩

lemma gpr_in_band1 (p : ℚ) (h1 : 10 ≤ p) (h2 : p < 50) (k : ℤ)
    (hk : p = k * 0.05) :
    get_price_range p create_price_table =
      .ok (max (p - (if p = 10 then 0.01 else 0.05)) 0.01, p + 0.05) := by
  have e0 : ¬ p ≤ 0 := not_le.mpr (by linarith)
  have e1 : ¬ p < 0.01 := not_lt.mpr (by linarith)
  have e2 : ¬ p > 1000000 := not_lt.mpr (by linarith)
  have eidx := band_index1 p h1 h2
  have n10 : ¬ p < 10 := not_lt.mpr h1
  have n50 : ¬ 50 ≤ p := not_le.mpr h2
  have n100 : ¬ 100 ≤ p := not_le.mpr (by linarith)
  have n500 : ¬ 500 ≤ p := not_le.mpr (by linarith)
  have n1000 : ¬ 1000 ≤ p := not_le.mpr (by linarith)
  have eint : isInt (p * 20) = true :=
    (isInt_iff _).mpr ⟨k, by rw [hk]; ring_nf⟩
  have etick : tick_check 10 p = none := by
    simp [tick_check, eint, n10, n50, n100, n500, n1000]
  have hcp : Cent p := ⟨5 * k, by rw [hk]; push_cast; ring⟩
  have hcd : Cent (if p = 10 then (0.01 : ℚ) else 0.05) := by
    split_ifs
    · exact ⟨1, by norm_num⟩
    · exact ⟨5, by norm_num⟩
  have hd0 : (0 : ℚ) ≤ (if p = 10 then (0.01 : ℚ) else 0.05) := by
    split_ifs <;> norm_num
  simp [get_price_range, eidx, e0, e1, e2, table_getD0, table_getD1, etick]
  exact ok_payload p _ 0.05 (by linarith) hd0 hcp hcd ⟨5, by norm_num⟩

lemma gpr_in_band2 (p : ℚ) (h1 : 50 ≤ p) (h2 : p < 100) (k : ℤ)
    (hk : p = k * 0.1) :
    get_price_range p create_price_table =
      .ok (max (p - (if p = 50 then 0.05 else 0.1)) 0.01, p + 0.1) := by
  have e0 : ¬ p ≤ 0 := not_le.mpr (by linarith)
  have e1 : ¬ p < 0.01 := not_lt.mpr (by linarith)
  have e2 : ¬ p > 1000000 := not_lt.mpr (by linarith)
  have eidx := band_index2 p h1 h2
  have n10 : ¬ p < 10 := not_lt.mpr (by linarith)
  have n50 : ¬ p < 50 := not_lt.mpr h1
  have n100 : ¬ 100 ≤ p := not_le.mpr h2
  have n500 : ¬ 500 ≤ p := not_le.mpr (by linarith)
  have n1000 : ¬ 1000 ≤ p := not_le.mpr (by linarith)
  have eint : isInt (p * 10) = true :=
    (isInt_iff _).mpr ⟨k, by rw [hk]; ring_nf⟩
  have etick : tick_check 50 p = none := by
    simp [tick_check, eint, n10, n50, n100, n500, n1000]
  have hcp : Cent p := ⟨10 * k, by rw [hk]; push_cast; ring⟩
  have hcd : Cent (if p = 50 then (0.05 : ℚ) else 0.1) := by
    split_ifs
    · exact ⟨5, by norm_num⟩
    · exact ⟨10, by norm_num⟩
  have hd0 : (0 : ℚ) ≤ (if p = 50 then (0.05 : ℚ) else 0.1) := by
    split_ifs <;> norm_num
  simp [get_price_range, eidx, e0, e1, e2, table_getD1, table_getD2, etick]
  exact ok_payload p _ 0.1 (by linarith) hd0 hcp hcd ⟨10, by norm_num⟩

lemma gpr_in_band3 (p : ℚ) (h1 : 100 ≤ p) (h2 : p < 150) (k : ℤ)
    (hk : p = k * 0.5) :
    get_price_range p create_price_table =
      .ok (max (p - (if p = 100 then 0.1 else 0.5)) 0.01, p + 0.5) := by
  have e0 : ¬ p ≤ 0 := not_le.mpr (by linarith)
  have e1 : ¬ p < 0.01 := not_lt.mpr (by linarith)
  have e2 : ¬ p > 1000000 := not_lt.mpr (by linarith)
  have eidx := band_index3 p h1 h2
  have n10 : ¬ p < 10 := not_lt.mpr (by linarith)
  have n50 : ¬ p < 50 := not_lt.mpr (by linarith)
  have n100 : ¬ p < 100 := not_lt.mpr h1
  have n500 : ¬ 500 ≤ p := not_le.mpr (by linarith)
  have n1000 : ¬ 1000 ≤ p := not_le.mpr (by linarith)
  have eint : isInt (p * 2) = true :=
    (isInt_iff _).mpr ⟨k, by rw [hk]; ring_nf⟩
  have etick : tick_check 100 p = none := by
    simp [tick_check, eint, n10, n50, n100, n500, n1000]
  have hcp : Cent p := ⟨50 * k, by rw [hk]; push_cast; ring⟩
  have hcd : Cent (if p = 100 then (0.1 : ℚ) else 0.5) := by
    split_ifs
    · exact ⟨10, by norm_num⟩
    · exact ⟨50, by norm_num⟩
  have hd0 : (0 : ℚ) ≤ (if p = 100 then (0.1 : ℚ) else 0.5) := by
    split_ifs <;> norm_num
  simp [get_price_range, eidx, e0, e1, e2, table_getD2, table_getD3, etick]
  exact ok_payload p _ 0.5 (by linarith) hd0 hcp hcd ⟨50, by norm_num⟩

lemma gpr_in_band4 (p : ℚ) (h1 : 150 ≤ p) (h2 : p < 500) (k : ℤ)
    (hk : p = k * 0.5) :
    get_price_range p create_price_table =
      .ok (max (p - 0.5) 0.01, p + 0.5) := by
  have e0 : ¬ p ≤ 0 := not_le.mpr (by linarith)
  have e1 : ¬ p < 0.01 := not_lt.mpr (by linarith)
  have e2 : ¬ p > 1000000 := not_lt.mpr (by linarith)
  have eidx := band_index4 p h1 h2
  have n10 : ¬ p < 10 := not_lt.mpr (by linarith)
  have n50 : ¬ p < 50 := not_lt.mpr (by linarith)
  have n100 : ¬ p < 100 := not_lt.mpr (by linarith)
  have n500 : ¬ 500 ≤ p := not_le.mpr h2
  have n1000 : ¬ 1000 ≤ p := not_le.mpr (by linarith)
  have eint : isInt (p * 2) = true :=
    (isInt_iff _).mpr ⟨k, by rw [hk]; ring_nf⟩
  have etick : tick_check 150 p = none := by
    simp [tick_check, eint, n10, n50, n100, n500, n1000]
  have hcp : Cent p := ⟨50 * k, by rw [hk]; push_cast; ring⟩
  simp [get_price_range, eidx, e0, e1, e2, table_getD3, table_getD4, etick]
  exact ok_payload p 0.5 0.5 (by linarith) (by norm_num) hcp ⟨50, by norm_num⟩
    ⟨50, by norm_num⟩

lemma gpr_in_band5 (p : ℚ) (h1 : 500 ≤ p) (h2 : p < 1000) (k : ℤ)
    (hk : p = (k : ℚ)) :
    get_price_range p create_price_table =
      .ok (max (p - (if p = 500 then 0.5 else 1.0)) 0.01, p + 1.0) := by
  have e0 : ¬ p ≤ 0 := not_le.mpr (by linarith)
  have e1 : ¬ p < 0.01 := not_lt.mpr (by linarith)
  have e2 : ¬ p > 1000000 := not_lt.mpr (by linarith)
  have eidx := band_index5 p h1 h2
  have n10 : ¬ p < 10 := not_lt.mpr (by linarith)
  have n50 : ¬ p < 50 := not_lt.mpr (by linarith)
  have n100 : ¬ p < 100 := not_lt.mpr (by linarith)
  have n500 : ¬ p < 500 := not_lt.mpr h1
  have n1000 : ¬ 1000 ≤ p := not_le.mpr h2
  have eint : isInt p = true := (isInt_iff _).mpr ⟨k, hk⟩
  have etick : tick_check 500 p = none := by
    simp [tick_check, eint, n10, n50, n100, n500, n1000]
  have hcp : Cent p := ⟨100 * k, by rw [hk]; push_cast; ring⟩
  have hcd : Cent (if p = 500 then (0.5 : ℚ) else 1.0) := by
    split_ifs
    · exact ⟨50, by norm_num⟩
    · exact ⟨100, by norm_num⟩
  have hd0 : (0 : ℚ) ≤ (if p = 500 then (0.5 : ℚ) else 1.0) := by
    split_ifs <;> norm_num
  simp [get_price_range, eidx, e0, e1, e2, table_getD4, table_getD5, etick]
  exact ok_payload p _ 1.0 (by linarith) hd0 hcp hcd ⟨100, by norm_num⟩

lemma gpr_in_band6 (p : ℚ) (h1 : 1000 ≤ p) (h2 : p ≤ 1000000) (k : ℤ)
    (hk : p = k * 5) :
    get_price_range p create_price_table =
      .ok (max (p - (if p = 1000 then 1.0 else 5.0)) 0.01, p + 5.0) := by
  have e0 : ¬ p ≤ 0 := not_le.mpr (by linarith)
  have e1 : ¬ p < 0.01 := not_lt.mpr (by linarith)
  have e2 : ¬ p > 1000000 := not_lt.mpr h2
  have eidx := band_index6 p h1
  have n10 : ¬ p < 10 := not_lt.mpr (by linarith)
  have n50 : ¬ p < 50 := not_lt.mpr (by linarith)
  have n100 : ¬ p < 100 := not_lt.mpr (by linarith)
  have n500 : ¬ p < 500 := not_lt.mpr (by linarith)
  have n1000 : ¬ p < 1000 := not_lt.mpr h1
  have eint : isInt p = true :=
    (isInt_iff _).mpr ⟨k * 5, by rw [hk]; push_cast; ring⟩
  have ediv : ((k : ℚ) * 5) / 5 = (k : ℚ) := by
    rw [mul_div_assoc]
    norm_num
  have efmod : fmod p 5 = 0 := by
    unfold fmod
    rw [hk, ediv, Int.floor_intCast]
    ring
  have etick : tick_check 1000 p = none := by
    simp [tick_check, eint, efmod, n10, n50, n100, n500, n1000]
  have hcp : Cent p := ⟨500 * k, by rw [hk]; push_cast; ring⟩
  have hcd : Cent (if p = 1000 then (1.0 : ℚ) else 5.0) := by
    split_ifs
    · exact ⟨100, by norm_num⟩
    · exact ⟨500, by norm_num⟩
  have hd0 : (0 : ℚ) ≤ (if p = 1000 then (1.0 : ℚ) else 5.0) := by
    split_ifs <;> norm_num
  simp [get_price_range, eidx, e0, e1, e2, table_getD5, table_getD6, etick]
  exact ok_payload p _ 5.0 (by linarith) hd0 hcp hcd ⟨500, by norm_num⟩

lemma fmod_isInt_iff (p : ℚ) :
    (fmod p 5 = 0 ∧ isInt p = true) ↔ ∃ k : ℤ, p = k * 5 := by
  constructor
  · rintro ⟨hf, _⟩
    unfold fmod at hf
    exact ⟨⌊p / 5⌋, by linarith⟩
  · rintro ⟨k, hk⟩
    have ediv : ((k : ℚ) * 5) / 5 = (k : ℚ) := by
      rw [mul_div_assoc]
      norm_num
    refine ⟨?_, (isInt_iff _).mpr ⟨k * 5, by rw [hk]; push_cast; ring⟩⟩
    unfold fmod
    rw [hk, ediv, Int.floor_intCast]
    ring

lemma gpr_err_band0 (p : ℚ) (h1 : 0.01 ≤ p) (h2 : p < 10)
    (hk : ¬ ∃ k : ℤ, p = k * 0.01) :
    get_price_range p create_price_table = .error .tickRange001To10 := by
  have e0 : ¬ p ≤ 0 := not_le.mpr (by linarith)
  have e1 : ¬ p < 0.01 := not_lt.mpr h1
  have e2 : ¬ p > 1000000 := not_lt.mpr (by linarith)
  have eidx := band_index0 p h1 h2
  have eint : ¬ isInt (p * 100) = true := by
    rw [isInt_iff]
    rintro ⟨j, hj⟩
    exact hk ⟨j, by linarith⟩
  have etick : tick_check 0.01 p = some .tickRange001To10 := by
    simp [tick_check, eint, h1, h2]
  simp [get_price_range, e0, e1, e2, eidx, table_getD0, etick]

lemma gpr_err_band1 (p : ℚ) (h1 : 10 ≤ p) (h2 : p < 50)
    (hk : ¬ ∃ k : ℤ, p = k * 0.05) :
    get_price_range p create_price_table = .error .tickRange10To50 := by
  have e0 : ¬ p ≤ 0 := not_le.mpr (by linarith)
  have e1 : ¬ p < 0.01 := not_lt.mpr (by linarith)
  have e2 : ¬ p > 1000000 := not_lt.mpr (by linarith)
  have eidx := band_index1 p h1 h2
  have n10 : ¬ p < 10 := not_lt.mpr h1
  have eint : ¬ isInt (p * 20) = true := by
    rw [isInt_iff]
    rintro ⟨j, hj⟩
    exact hk ⟨j, by linarith⟩
  have etick : tick_check 10 p = some .tickRange10To50 := by
    simp [tick_check, eint, n10, h1, h2]
  simp [get_price_range, e0, e1, e2, eidx, table_getD1, etick]

lemma gpr_err_band2 (p : ℚ) (h1 : 50 ≤ p) (h2 : p < 100)
    (hk : ¬ ∃ k : ℤ, p = k * 0.1) :
    get_price_range p create_price_table = .error .tickRange50To100 := by
  have e0 : ¬ p ≤ 0 := not_le.mpr (by linarith)
  have e1 : ¬ p < 0.01 := not_lt.mpr (by linarith)
  have e2 : ¬ p > 1000000 := not_lt.mpr (by linarith)
  have eidx := band_index2 p h1 h2
  have n10 : ¬ p < 10 := not_lt.mpr (by linarith)
  have n50 : ¬ p < 50 := not_lt.mpr h1
  have eint : ¬ isInt (p * 10) = true := by
    rw [isInt_iff]
    rintro ⟨j, hj⟩
    exact hk ⟨j, by linarith⟩
  have etick : tick_check 50 p = some .tickRange50To100 := by
    simp [tick_check, eint, n10, n50, h1, h2]
  simp [get_price_range, e0, e1, e2, eidx, table_getD2, etick]

lemma gpr_err_band3 (p : ℚ) (h1 : 100 ≤ p) (h2 : p < 150)
    (hk : ¬ ∃ k : ℤ, p = k * 0.5) :
    get_price_range p create_price_table = .error .tickRange100To500 := by
  have e0 : ¬ p ≤ 0 := not_le.mpr (by linarith)
  have e1 : ¬ p < 0.01 := not_lt.mpr (by linarith)
  have e2 : ¬ p > 1000000 := not_lt.mpr (by linarith)
  have eidx := band_index3 p h1 h2
  have n10 : ¬ p < 10 := not_lt.mpr (by linarith)
  have n50 : ¬ p < 50 := not_lt.mpr (by linarith)
  have n100 : ¬ p < 100 := not_lt.mpr h1
  have h500 : p < 500 := h2.trans_le (by norm_num)
  have eint : ¬ isInt (p * 2) = true := by
    rw [isInt_iff]
    rintro ⟨j, hj⟩
    exact hk ⟨j, by linarith⟩
  have etick : tick_check 100 p = some .tickRange100To500 := by
    simp [tick_check, eint, n10, n50, n100, h1, h500]
  simp [get_price_range, e0, e1, e2, eidx, table_getD3, etick]

lemma gpr_err_band4 (p : ℚ) (h1 : 150 ≤ p) (h2 : p < 500)
    (hk : ¬ ∃ k : ℤ, p = k * 0.5) :
    get_price_range p create_price_table = .error .tickRange100To500 := by
  have e0 : ¬ p ≤ 0 := not_le.mpr (by linarith)
  have e1 : ¬ p < 0.01 := not_lt.mpr (by linarith)
  have e2 : ¬ p > 1000000 := not_lt.mpr (by linarith)
  have eidx := band_index4 p h1 h2
  have n10 : ¬ p < 10 := not_lt.mpr (by linarith)
  have n50 : ¬ p < 50 := not_lt.mpr (by linarith)
  have n100 : ¬ p < 100 := not_lt.mpr (by linarith)
  have h100 : 100 ≤ p := by linarith
  have eint : ¬ isInt (p * 2) = true := by
    rw [isInt_iff]
    rintro ⟨j, hj⟩
    exact hk ⟨j, by linarith⟩
  have etick : tick_check 150 p = some .tickRange100To500 := by
    simp [tick_check, eint, n10, n50, n100, h100, h2]
  simp [get_price_range, e0, e1, e2, eidx, table_getD4, etick]

lemma gpr_err_band5 (p : ℚ) (h1 : 500 ≤ p) (h2 : p < 1000)
    (hk : ¬ ∃ k : ℤ, p = (k : ℚ)) :
    get_price_range p create_price_table = .error .tickRange500To1000 := by
  have e0 : ¬ p ≤ 0 := not_le.mpr (by linarith)
  have e1 : ¬ p < 0.01 := not_lt.mpr (by linarith)
  have e2 : ¬ p > 1000000 := not_lt.mpr (by linarith)
  have eidx := band_index5 p h1 h2
  have n10 : ¬ p < 10 := not_lt.mpr (by linarith)
  have n50 : ¬ p < 50 := not_lt.mpr (by linarith)
  have n100 : ¬ p < 100 := not_lt.mpr (by linarith)
  have n500 : ¬ p < 500 := not_lt.mpr h1
  have eint : ¬ isInt p = true := by
    rw [isInt_iff]
    exact hk
  have etick : tick_check 500 p = some .tickRange500To1000 := by
    simp [tick_check, eint, n10, n50, n100, n500, h1, h2]
  simp [get_price_range, e0, e1, e2, eidx, table_getD5, etick]

lemma gpr_err_band6 (p : ℚ) (h1 : 1000 ≤ p) (h2 : p ≤ 1000000)
    (hk : ¬ ∃ k : ℤ, p = k * 5) :
    get_price_range p create_price_table = .error .tickAbove1000 := by
  have e0 : ¬ p ≤ 0 := not_le.mpr (by linarith)
  have e1 : ¬ p < 0.01 := not_lt.mpr (by linarith)
  have e2 : ¬ p > 1000000 := not_lt.mpr h2
  have eidx := band_index6 p h1
  have n10 : ¬ p < 10 := not_lt.mpr (by linarith)
  have n50 : ¬ p < 50 := not_lt.mpr (by linarith)
  have n100 : ¬ p < 100 := not_lt.mpr (by linarith)
  have n500 : ¬ p < 500 := not_lt.mpr (by linarith)
  have n1000 : ¬ p < 1000 := not_lt.mpr h1
  have hno : ¬ (fmod p 5 = 0 ∧ isInt p = true) := fun h => hk ((fmod_isInt_iff p).mp h)
  have etick : tick_check 1000 p = some .tickAbove1000 := by
    simp [tick_check, hno, n10, n50, n100, n500, n1000, h1]
  simp [get_price_range, e0, e1, e2, eidx, table_getD6, etick]

lemma specTickOk0 (p : ℚ) (h2 : p < 10) :
    specTickOk p ↔ ∃ k : ℤ, p = k * 0.01 := by
  simp [specTickOk, h2]

lemma specTickOk1 (p : ℚ) (h1 : 10 ≤ p) (h2 : p < 50) :
    specTickOk p ↔ ∃ k : ℤ, p = k * 0.05 := by
  simp [specTickOk, not_lt.mpr h1, h2]

lemma specTickOk2 (p : ℚ) (h1 : 50 ≤ p) (h2 : p < 100) :
    specTickOk p ↔ ∃ k : ℤ, p = k * 0.1 := by
  have n10 : ¬ p < 10 := not_lt.mpr (by linarith)
  have n50 : ¬ p < 50 := not_lt.mpr h1
  simp [specTickOk, n10, n50, h2]

lemma specTickOk3 (p : ℚ) (h1 : 100 ≤ p) (h2 : p < 150) :
    specTickOk p ↔ ∃ k : ℤ, p = k * 0.5 := by
  have n10 : ¬ p < 10 := not_lt.mpr (by linarith)
  have n50 : ¬ p < 50 := not_lt.mpr (by linarith)
  have n100 : ¬ p < 100 := not_lt.mpr h1
  have h500 : p < 500 := h2.trans_le (by norm_num)
  simp [specTickOk, n10, n50, n100, h500]

lemma specTickOk4 (p : ℚ) (h1 : 150 ≤ p) (h2 : p < 500) :
    specTickOk p ↔ ∃ k : ℤ, p = k * 0.5 := by
  have n10 : ¬ p < 10 := not_lt.mpr (by linarith)
  have n50 : ¬ p < 50 := not_lt.mpr (by linarith)
  have n100 : ¬ p < 100 := not_lt.mpr (by linarith)
  simp [specTickOk, n10, n50, n100, h2]

lemma specTickOk5 (p : ℚ) (h1 : 500 ≤ p) (h2 : p < 1000) :
    specTickOk p ↔ ∃ k : ℤ, p = (k : ℚ) := by
  have n10 : ¬ p < 10 := not_lt.mpr (by linarith)
  have n50 : ¬ p < 50 := not_lt.mpr (by linarith)
  have n100 : ¬ p < 100 := not_lt.mpr (by linarith)
  have n500 : ¬ p < 500 := not_lt.mpr h1
  simp [specTickOk, n10, n50, n100, n500, h2]

lemma specTickOk6 (p : ℚ) (h1 : 1000 ≤ p) :
    specTickOk p ↔ ∃ k : ℤ, p = k * 5 := by
  have n10 : ¬ p < 10 := not_lt.mpr (by linarith)
  have n50 : ¬ p < 50 := not_lt.mpr (by linarith)
  have n100 : ¬ p < 100 := not_lt.mpr (by linarith)
  have n500 : ¬ p < 500 := not_lt.mpr (by linarith)
  have n1000 : ¬ p < 1000 := not_lt.mpr h1
  simp [specTickOk, n10, n50, n100, n500, n1000]

lemma bandAt0 (p : ℚ) (h1 : 0.01 ≤ p) (h2 : p < 10) :
    bandAt p = ⟨0.01, some 10, 0.01⟩ := by
  rw [bandAt, band_index0 p h1 h2]
  rfl

lemma bandAt1 (p : ℚ) (h1 : 10 ≤ p) (h2 : p < 50) :
    bandAt p = ⟨10, some 50, 0.05⟩ := by
  rw [bandAt, band_index1 p h1 h2]
  rfl

lemma bandAt2 (p : ℚ) (h1 : 50 ≤ p) (h2 : p < 100) :
    bandAt p = ⟨50, some 100, 0.1⟩ := by
  rw [bandAt, band_index2 p h1 h2]
  rfl

lemma bandAt3 (p : ℚ) (h1 : 100 ≤ p) (h2 : p < 150) :
    bandAt p = ⟨100, some 150, 0.5⟩ := by
  rw [bandAt, band_index3 p h1 h2]
  rfl

lemma bandAt4 (p : ℚ) (h1 : 150 ≤ p) (h2 : p < 500) :
    bandAt p = ⟨150, some 500, 0.5⟩ := by
  rw [bandAt, band_index4 p h1 h2]
  rfl

lemma bandAt5 (p : ℚ) (h1 : 500 ≤ p) (h2 : p < 1000) :
    bandAt p = ⟨500, some 1000, 1.0⟩ := by
  rw [bandAt, band_index5 p h1 h2]
  rfl

lemma bandAt6 (p : ℚ) (h1 : 1000 ≤ p) :
    bandAt p = ⟨1000, none, 5.0⟩ := by
  rw [bandAt, band_index6 p h1]
  rfl

lemma prevBandAt1 (p : ℚ) (h1 : 10 ≤ p) (h2 : p < 50) :
    prevBandAt p = ⟨0.01, some 10, 0.01⟩ := by
  rw [prevBandAt, band_index1 p h1 h2]
  rfl

lemma prevBandAt2 (p : ℚ) (h1 : 50 ≤ p) (h2 : p < 100) :
    prevBandAt p = ⟨10, some 50, 0.05⟩ := by
  rw [prevBandAt, band_index2 p h1 h2]
  rfl

lemma prevBandAt3 (p : ℚ) (h1 : 100 ≤ p) (h2 : p < 150) :
    prevBandAt p = ⟨50, some 100, 0.1⟩ := by
  rw [prevBandAt, band_index3 p h1 h2]
  rfl

lemma prevBandAt4 (p : ℚ) (h1 : 150 ≤ p) (h2 : p < 500) :
    prevBandAt p = ⟨100, some 150, 0.5⟩ := by
  rw [prevBandAt, band_index4 p h1 h2]
  rfl

lemma prevBandAt5 (p : ℚ) (h1 : 500 ≤ p) (h2 : p < 1000) :
    prevBandAt p = ⟨150, some 500, 0.5⟩ := by
  rw [prevBandAt, band_index5 p h1 h2]
  rfl

lemma prevBandAt6 (p : ℚ) (h1 : 1000 ≤ p) :
    prevBandAt p = ⟨500, some 1000, 1.0⟩ := by
  rw [prevBandAt, band_index6 p h1]
  rfl

lemma admits_unique (p : ℚ) (i j : Nat) (hi : i < 7) (hj : j < 7)
    (hai : (create_price_table.getD i default).admits p)
    (haj : (create_price_table.getD j default).admits p) : i = j := by
  interval_cases i <;> interval_cases j <;>
    simp_all [create_price_table, Band.admits] <;> linarith

/-!
Claim theorems.
-/

/-- Claim C1: for the concrete valid prices of the spec's scenarios,
`get_price_range` with the standard table returns exactly the stated bounds:
price 5.00 gives (4.99, 5.01); price 100.00 gives (99.90, 100.50);
price 1000.00 gives (999.00, 1005.00). -/
theorem claim1_concrete_scenarios :
    get_price_range 5 create_price_table = .ok (4.99, 5.01) ∧
    get_price_range 100 create_price_table = .ok (99.90, 100.50) ∧
    get_price_range 1000 create_price_table = .ok (999.00, 1005.00) := by
  refine ⟨?_, ?_, ?_⟩
  · rw [gpr_in_band0 5 (by norm_num) (by norm_num) 500 (by norm_num)]
    norm_num [max_def]
  · rw [gpr_in_band3 100 (by norm_num) (by norm_num) 200 (by norm_num)]
    norm_num [max_def]
  · rw [gpr_in_band6 1000 (by norm_num) (by norm_num) 200 (by norm_num)]
    norm_num [max_def]

/-- Claim C5: the validation checks run in their fixed order and the first
failing one determines the failure: a numeric price strictly between 0 and
0.01 fails with the below-minimum error, and a numeric price above
1,000,000 fails with the exceeds-maximum error, whatever the table. -/
theorem claim5_validation_order :
    (∀ (p : ℚ) (t : List Band), 0 < p → p < 0.01 →
      get_price_range p t = .error .belowMinimum) ∧
    (∀ (p : ℚ) (t : List Band), 1000000 < p →
      get_price_range p t = .error .exceedsMaximum) := by
  constructor
  · intro p t h1 h2
    have e0 : ¬ p ≤ 0 := not_le.mpr h1
    simp [get_price_range, e0, h2]
  · intro p t h
    have e0 : ¬ p ≤ 0 := not_le.mpr (by linarith)
    have e1 : ¬ p < 0.01 := not_lt.mpr (by linarith)
    simp [get_price_range, e0, e1, h]

/-- Witness for C5 at the spec's concrete inputs 0.005 and 2,000,000. -/
theorem claim5_validation_order_witness :
    get_price_range 0.005 create_price_table = .error .belowMinimum ∧
    get_price_range 2000000 create_price_table = .error .exceedsMaximum :=
  ⟨claim5_validation_order.1 0.005 create_price_table (by norm_num) (by norm_num),
   claim5_validation_order.2 2000000 create_price_table (by norm_num)⟩

/-- Claim C6: `create_price_table` returns exactly the seven bands
(0.01, 10, 0.01), (10, 50, 0.05), (50, 100, 0.1), (100, 150, 0.5),
(150, 500, 0.5), (500, 1000, 1.0), (1000, unbounded, 5.0), in strictly
ascending start order; it is a pure data construction. -/
theorem claim6_table_contents :
    create_price_table =
      [ ⟨0.01, some 10, 0.01⟩,
        ⟨10, some 50, 0.05⟩,
        ⟨50, some 100, 0.1⟩,
        ⟨100, some 150, 0.5⟩,
        ⟨150, some 500, 0.5⟩,
        ⟨500, some 1000, 1.0⟩,
        ⟨1000, none, 5.0⟩ ] ∧
    create_price_table.Chain' (fun a b => a.start < b.start) := by
  refine ⟨rfl, ?_⟩
  simp [create_price_table]
  norm_num

/-- Claim C8: every input whose value is not strictly positive fails with
the not-positive error, whatever the table: no such input reaches the band
lookup or returns a result. -/
theorem claim8_not_positive (p : ℚ) (t : List Band) (h : p ≤ 0) :
    get_price_range p t = .error .notPositive := by
  simp [get_price_range, h]

/-- Witness for C8 at price 0. -/
theorem claim8_not_positive_witness :
    get_price_range 0 create_price_table = .error .notPositive :=
  claim8_not_positive 0 create_price_table (by norm_num)

/-- Claim C9: `get_price_range` is deterministic and mutates no shared
state: in the state-passing form, a call leaves the table unchanged, and a
second call with the same price on the table left by the first returns the
same result. -/
theorem claim9_pure_call (p : ℚ) (t : List Band) :
    (get_price_range_call p t).2 = t ∧
    (get_price_range_call p ((get_price_range_call p t).2)).1 =
      (get_price_range_call p t).1 :=
  ⟨rfl, rfl⟩

/-- Claim C10: whenever `get_price_range` succeeds the returned lower bound
is at least 0.01, whatever the table; at the minimum valid price 0.01 the
result is (0.01, 0.02). -/
theorem claim10_lower_bound_floor :
    (∀ (p : ℚ) (t : List Band) (lo hi : ℚ),
      get_price_range p t = .ok (lo, hi) → 0.01 ≤ lo) ∧
    get_price_range 0.01 create_price_table = .ok (0.01, 0.02) := by
  constructor
  · intro p t lo hi h
    by_cases e0 : p ≤ 0
    · simp [get_price_range, e0] at h
    by_cases e1 : p < 0.01
    · simp [get_price_range, e0, e1] at h
    by_cases e2 : p > 1000000
    · simp [get_price_range, e0, e1, e2] at h
    rcases h4 : tick_check (((t[band_index t p]?).getD default).start) p with _ | e
    · simp [get_price_range, e0, e1, e2, h4] at h
      have hp : 0.01 ≤ p := not_lt.mp e1
      obtain ⟨hlo, _⟩ := h
      rw [← hlo]
      exact round2_ge_min _ (le_min (le_max_right _ _) hp)
    · simp [get_price_range, e0, e1, e2, h4] at h
  · rw [gpr_in_band0 0.01 (by norm_num) (by norm_num) 1 (by norm_num)]
    norm_num [max_def]

/-- Claim C4: for every price in the valid magnitude range, the bisect
lookup selects a band of the seven-band table that contains the price
(start inclusive, end exclusive, top band unbounded), and it is the only
band of the table that does. -/
theorem claim4_band_lookup (p : ℚ) (h1 : 0.01 ≤ p) (h2 : p ≤ 1000000) :
    band_index create_price_table p < create_price_table.length ∧
    (bandAt p).admits p ∧
    ∀ j, j < create_price_table.length →
      (create_price_table.getD j default).admits p →
      j = band_index create_price_table p := by
  have key : band_index create_price_table p < 7 ∧ (bandAt p).admits p := by
    rcases lt_or_le p 10 with i1 | i1
    · rw [band_index0 p h1 i1, bandAt0 p h1 i1]
      exact ⟨by norm_num, by simp [Band.admits]; exact ⟨h1, i1⟩⟩
    rcases lt_or_le p 50 with i2 | i2
    · rw [band_index1 p i1 i2, bandAt1 p i1 i2]
      exact ⟨by norm_num, by simp [Band.admits]; exact ⟨i1, i2⟩⟩
    rcases lt_or_le p 100 with i3 | i3
    · rw [band_index2 p i2 i3, bandAt2 p i2 i3]
      exact ⟨by norm_num, by simp [Band.admits]; exact ⟨i2, i3⟩⟩
    rcases lt_or_le p 150 with i4 | i4
    · rw [band_index3 p i3 i4, bandAt3 p i3 i4]
      exact ⟨by norm_num, by simp [Band.admits]; exact ⟨i3, i4⟩⟩
    rcases lt_or_le p 500 with i5 | i5
    · rw [band_index4 p i4 i5, bandAt4 p i4 i5]
      exact ⟨by norm_num, by simp [Band.admits]; exact ⟨i4, i5⟩⟩
    rcases lt_or_le p 1000 with i6 | i6
    · rw [band_index5 p i5 i6, bandAt5 p i5 i6]
      exact ⟨by norm_num, by simp [Band.admits]; exact ⟨i5, i6⟩⟩
    · rw [band_index6 p i6, bandAt6 p i6]
      exact ⟨by norm_num, by simp [Band.admits]; exact i6⟩
  refine ⟨by simpa [create_price_table] using key.1, key.2, fun j hj haj => ?_⟩
  exact admits_unique p j (band_index create_price_table p)
    (by simpa [create_price_table] using hj) key.1 haj key.2

/-- Witness for C4 at price 5. -/
theorem claim4_band_lookup_witness :
    band_index create_price_table 5 < create_price_table.length ∧
    (bandAt 5).admits 5 ∧
    ∀ j, j < create_price_table.length →
      (create_price_table.getD j default).admits 5 →
      j = band_index create_price_table 5 :=
  claim4_band_lookup 5 (by norm_num) (by norm_num)

/-- Claim C7: for every valid price (in range and tick-conformant), the
returned pair satisfies lower ≤ price ≤ upper. -/
theorem claim7_bounds (p : ℚ) (h1 : 0.01 ≤ p) (h2 : p ≤ 1000000)
    (h3 : specTickOk p) :
    ∃ lo hi, get_price_range p create_price_table = .ok (lo, hi) ∧
      lo ≤ p ∧ p ≤ hi := by
  rcases lt_or_le p 10 with i1 | i1
  · obtain ⟨k, hk⟩ := (specTickOk0 p i1).mp h3
    exact ⟨_, _, gpr_in_band0 p h1 i1 k hk,
      max_le (by linarith) h1, by linarith⟩
  rcases lt_or_le p 50 with i2 | i2
  · obtain ⟨k, hk⟩ := (specTickOk1 p i1 i2).mp h3
    refine ⟨_, _, gpr_in_band1 p i1 i2 k hk, ?_, by linarith⟩
    have hd : (0 : ℚ) ≤ if p = 10 then (0.01 : ℚ) else 0.05 := by
      split_ifs <;> norm_num
    exact max_le (by linarith) (by linarith)
  rcases lt_or_le p 100 with i3 | i3
  · obtain ⟨k, hk⟩ := (specTickOk2 p i2 i3).mp h3
    refine ⟨_, _, gpr_in_band2 p i2 i3 k hk, ?_, by linarith⟩
    have hd : (0 : ℚ) ≤ if p = 50 then (0.05 : ℚ) else 0.1 := by
      split_ifs <;> norm_num
    exact max_le (by linarith) (by linarith)
  rcases lt_or_le p 150 with i4 | i4
  · obtain ⟨k, hk⟩ := (specTickOk3 p i3 i4).mp h3
    refine ⟨_, _, gpr_in_band3 p i3 i4 k hk, ?_, by linarith⟩
    have hd : (0 : ℚ) ≤ if p = 100 then (0.1 : ℚ) else 0.5 := by
      split_ifs <;> norm_num
    exact max_le (by linarith) (by linarith)
  rcases lt_or_le p 500 with i5 | i5
  · obtain ⟨k, hk⟩ := (specTickOk4 p i4 i5).mp h3
    exact ⟨_, _, gpr_in_band4 p i4 i5 k hk,
      max_le (by linarith) (by linarith), by linarith⟩
  rcases lt_or_le p 1000 with i6 | i6
  · obtain ⟨k, hk⟩ := (specTickOk5 p i5 i6).mp h3
    refine ⟨_, _, gpr_in_band5 p i5 i6 k hk, ?_, by linarith⟩
    have hd : (0 : ℚ) ≤ if p = 500 then (0.5 : ℚ) else 1.0 := by
      split_ifs <;> norm_num
    exact max_le (by linarith) (by linarith)
  · obtain ⟨k, hk⟩ := (specTickOk6 p i6).mp h3
    refine ⟨_, _, gpr_in_band6 p i6 h2 k hk, ?_, by linarith⟩
    have hd : (0 : ℚ) ≤ if p = 1000 then (1.0 : ℚ) else 5.0 := by
      split_ifs <;> norm_num
    exact max_le (by linarith) (by linarith)

/-- Witness for C7 at price 5. -/
theorem claim7_bounds_witness :
    ∃ lo hi, get_price_range 5 create_price_table = .ok (lo, hi) ∧
      lo ≤ 5 ∧ 5 ≤ hi :=
  claim7_bounds 5 (by norm_num) (by norm_num)
    ((specTickOk0 5 (by norm_num)).mpr ⟨500, by norm_num⟩)

/-- Claim C2: for a valid price equal to the start of its matched band with
that band not the first, the downward move uses the previous band's
fluctuation while the upward move uses the current band's; every other
valid price uses the matched band's fluctuation in both directions. -/
theorem claim2_boundary_fluctuation (p : ℚ) (h1 : 0.01 ≤ p)
    (h2 : p ≤ 1000000) (h3 : specTickOk p) :
    (p = (bandAt p).start ∧ 0 < band_index create_price_table p →
      get_price_range p create_price_table =
        .ok (p - (prevBandAt p).fluctuation, p + (bandAt p).fluctuation)) ∧
    (¬ (p = (bandAt p).start ∧ 0 < band_index create_price_table p) →
      get_price_range p create_price_table =
        .ok (max (p - (bandAt p).fluctuation) 0.01,
          p + (bandAt p).fluctuation)) := by
  rcases lt_or_le p 10 with i1 | i1
  · obtain ⟨k, hk⟩ := (specTickOk0 p i1).mp h3
    have hb := bandAt0 p h1 i1
    constructor
    · rintro ⟨-, hpos⟩
      rw [band_index0 p h1 i1] at hpos
      exact absurd hpos (by norm_num)
    · intro _
      rw [gpr_in_band0 p h1 i1 k hk, hb]
  rcases lt_or_le p 50 with i2 | i2
  · obtain ⟨k, hk⟩ := (specTickOk1 p i1 i2).mp h3
    have hb := bandAt1 p i1 i2
    have hpb := prevBandAt1 p i1 i2
    constructor
    · rintro ⟨hs, -⟩
      rw [hb] at hs
      have hs0 : p = 10 := hs
      rw [gpr_in_band1 p i1 i2 k hk, hb, hpb, if_pos hs0, hs0]
      norm_num [max_def]
    · intro hnot
      have hs : ¬ p = 10 :=
        fun h => hnot ⟨by rw [hb]; exact h,
          by rw [band_index1 p i1 i2]; norm_num⟩
      rw [gpr_in_band1 p i1 i2 k hk, hb, if_neg hs]
  rcases lt_or_le p 100 with i3 | i3
  · obtain ⟨k, hk⟩ := (specTickOk2 p i2 i3).mp h3
    have hb := bandAt2 p i2 i3
    have hpb := prevBandAt2 p i2 i3
    constructor
    · rintro ⟨hs, -⟩
      rw [hb] at hs
      have hs0 : p = 50 := hs
      rw [gpr_in_band2 p i2 i3 k hk, hb, hpb, if_pos hs0, hs0]
      norm_num [max_def]
    · intro hnot
      have hs : ¬ p = 50 :=
        fun h => hnot ⟨by rw [hb]; exact h,
          by rw [band_index2 p i2 i3]; norm_num⟩
      rw [gpr_in_band2 p i2 i3 k hk, hb, if_neg hs]
  rcases lt_or_le p 150 with i4 | i4
  · obtain ⟨k, hk⟩ := (specTickOk3 p i3 i4).mp h3
    have hb := bandAt3 p i3 i4
    have hpb := prevBandAt3 p i3 i4
    constructor
    · rintro ⟨hs, -⟩
      rw [hb] at hs
      have hs0 : p = 100 := hs
      rw [gpr_in_band3 p i3 i4 k hk, hb, hpb, if_pos hs0, hs0]
      norm_num [max_def]
    · intro hnot
      have hs : ¬ p = 100 :=
        fun h => hnot ⟨by rw [hb]; exact h,
          by rw [band_index3 p i3 i4]; norm_num⟩
      rw [gpr_in_band3 p i3 i4 k hk, hb, if_neg hs]
  rcases lt_or_le p 500 with i5 | i5
  · obtain ⟨k, hk⟩ := (specTickOk4 p i4 i5).mp h3
    have hb := bandAt4 p i4 i5
    have hpb := prevBandAt4 p i4 i5
    constructor
    · rintro ⟨hs, -⟩
      rw [hb] at hs
      have hs0 : p = 150 := hs
      rw [gpr_in_band4 p i4 i5 k hk, hb, hpb, hs0]
      norm_num [max_def]
    · intro _
      rw [gpr_in_band4 p i4 i5 k hk, hb]
  rcases lt_or_le p 1000 with i6 | i6
  · obtain ⟨k, hk⟩ := (specTickOk5 p i5 i6).mp h3
    have hb := bandAt5 p i5 i6
    have hpb := prevBandAt5 p i5 i6
    constructor
    · rintro ⟨hs, -⟩
      rw [hb] at hs
      have hs0 : p = 500 := hs
      rw [gpr_in_band5 p i5 i6 k hk, hb, hpb, if_pos hs0, hs0]
      norm_num [max_def]
    · intro hnot
      have hs : ¬ p = 500 :=
        fun h => hnot ⟨by rw [hb]; exact h,
          by rw [band_index5 p i5 i6]; norm_num⟩
      rw [gpr_in_band5 p i5 i6 k hk, hb, if_neg hs]
  · obtain ⟨k, hk⟩ := (specTickOk6 p i6).mp h3
    have hb := bandAt6 p i6
    have hpb := prevBandAt6 p i6
    constructor
    · rintro ⟨hs, -⟩
      rw [hb] at hs
      have hs0 : p = 1000 := hs
      rw [gpr_in_band6 p i6 h2 k hk, hb, hpb, if_pos hs0, hs0]
      norm_num [max_def]
    · intro hnot
      have hs : ¬ p = 1000 :=
        fun h => hnot ⟨by rw [hb]; exact h,
          by rw [band_index6 p i6]; norm_num⟩
      rw [gpr_in_band6 p i6 h2 k hk, hb, if_neg hs]

/-- Witness for C2 at the boundary price 10.00, giving (9.99, 10.05). -/
theorem claim2_boundary_fluctuation_witness :
    get_price_range 10 create_price_table = .ok (9.99, 10.05) := by
  have h := (claim2_boundary_fluctuation 10 (by norm_num) (by norm_num)
      ((specTickOk1 10 (by norm_num) (by norm_num)).mpr ⟨200, by norm_num⟩)).1
    ⟨by rw [bandAt1 10 (by norm_num) (by norm_num)],
     by rw [band_index1 10 (by norm_num) (by norm_num)]; norm_num⟩
  rw [h, prevBandAt1 10 (by norm_num) (by norm_num),
    bandAt1 10 (by norm_num) (by norm_num)]
  norm_num

/-- Claim C3: for every price in magnitude range, the call succeeds exactly
when the price satisfies the tick-size rule of the fixed range containing
it; in particular price 10.03 fails with the [10,50) tick error. -/
theorem claim3_tick_iff :
    (∀ p : ℚ, 0.01 ≤ p → p ≤ 1000000 →
      ((∃ r, get_price_range p create_price_table = .ok r) ↔ specTickOk p)) ∧
    get_price_range 10.03 create_price_table = .error .tickRange10To50 := by
  constructor
  · intro p h1 h2
    constructor
    · rintro ⟨r, hr⟩
      by_contra hno
      rcases lt_or_le p 10 with i1 | i1
      · have hk : ¬ ∃ k : ℤ, p = k * 0.01 :=
          fun he => hno ((specTickOk0 p i1).mpr he)
        rw [gpr_err_band0 p h1 i1 hk] at hr
        simp at hr
      rcases lt_or_le p 50 with i2 | i2
      · have hk : ¬ ∃ k : ℤ, p = k * 0.05 :=
          fun he => hno ((specTickOk1 p i1 i2).mpr he)
        rw [gpr_err_band1 p i1 i2 hk] at hr
        simp at hr
      rcases lt_or_le p 100 with i3 | i3
      · have hk : ¬ ∃ k : ℤ, p = k * 0.1 :=
          fun he => hno ((specTickOk2 p i2 i3).mpr he)
        rw [gpr_err_band2 p i2 i3 hk] at hr
        simp at hr
      rcases lt_or_le p 150 with i4 | i4
      · have hk : ¬ ∃ k : ℤ, p = k * 0.5 :=
          fun he => hno ((specTickOk3 p i3 i4).mpr he)
        rw [gpr_err_band3 p i3 i4 hk] at hr
        simp at hr
      rcases lt_or_le p 500 with i5 | i5
      · have hk : ¬ ∃ k : ℤ, p = k * 0.5 :=
          fun he => hno ((specTickOk4 p i4 i5).mpr he)
        rw [gpr_err_band4 p i4 i5 hk] at hr
        simp at hr
      rcases lt_or_le p 1000 with i6 | i6
      · have hk : ¬ ∃ k : ℤ, p = (k : ℚ) :=
          fun he => hno ((specTickOk5 p i5 i6).mpr he)
        rw [gpr_err_band5 p i5 i6 hk] at hr
        simp at hr
      · have hk : ¬ ∃ k : ℤ, p = k * 5 :=
          fun he => hno ((specTickOk6 p i6).mpr he)
        rw [gpr_err_band6 p i6 h2 hk] at hr
        simp at hr
    · intro hs
      rcases lt_or_le p 10 with i1 | i1
      · obtain ⟨k, hk⟩ := (specTickOk0 p i1).mp hs
        exact ⟨_, gpr_in_band0 p h1 i1 k hk⟩
      rcases lt_or_le p 50 with i2 | i2
      · obtain ⟨k, hk⟩ := (specTickOk1 p i1 i2).mp hs
        exact ⟨_, gpr_in_band1 p i1 i2 k hk⟩
      rcases lt_or_le p 100 with i3 | i3
      · obtain ⟨k, hk⟩ := (specTickOk2 p i2 i3).mp hs
        exact ⟨_, gpr_in_band2 p i2 i3 k hk⟩
      rcases lt_or_le p 150 with i4 | i4
      · obtain ⟨k, hk⟩ := (specTickOk3 p i3 i4).mp hs
        exact ⟨_, gpr_in_band3 p i3 i4 k hk⟩
      rcases lt_or_le p 500 with i5 | i5
      · obtain ⟨k, hk⟩ := (specTickOk4 p i4 i5).mp hs
        exact ⟨_, gpr_in_band4 p i4 i5 k hk⟩
      rcases lt_or_le p 1000 with i6 | i6
      · obtain ⟨k, hk⟩ := (specTickOk5 p i5 i6).mp hs
        exact ⟨_, gpr_in_band5 p i5 i6 k hk⟩
      · obtain ⟨k, hk⟩ := (specTickOk6 p i6).mp hs
        exact ⟨_, gpr_in_band6 p i6 h2 k hk⟩
  · refine gpr_err_band1 10.03 (by norm_num) (by norm_num) ?_
    rintro ⟨k, hk⟩
    have h5 : ((5 * k : ℤ) : ℚ) = 1003 := by push_cast; linarith
    have h5i : (5 * k : ℤ) = 1003 := by exact_mod_cast h5
    omega

/-- Witness for C3 at price 5. -/
theorem claim3_tick_iff_witness :
    ∃ r, get_price_range 5 create_price_table = .ok r :=
  (claim3_tick_iff.1 5 (by norm_num) (by norm_num)).mpr
    ((specTickOk0 5 (by norm_num)).mpr ⟨500, by norm_num⟩)

/-- Witness for C9 at price 5 with the standard table. -/
theorem claim9_pure_call_witness :
    (get_price_range_call 5 create_price_table).2 = create_price_table ∧
    (get_price_range_call 5
        ((get_price_range_call 5 create_price_table).2)).1 =
      (get_price_range_call 5 create_price_table).1 :=
  claim9_pure_call 5 create_price_table

/-- Witness for C10: instantiating the lower-bound property at price 0.01
with its evaluated result (0.01, 0.02). -/
theorem claim10_lower_bound_floor_witness : (0.01 : ℚ) ≤ 0.01 :=
  claim10_lower_bound_floor.1 0.01 create_price_table 0.01 0.02
    (by rw [gpr_in_band0 0.01 (by norm_num) (by norm_num) 1 (by norm_num)]
        norm_num [max_def])

end TwStock
